import Mathlib

/-!
Shallow embedding of `src/consumer/stream_consumer.rs` from messense/rust-rdkafka.

The file models, straight from the Rust source:
  * `PolledPtr` (the raw message handle with its `into_message_of` transfer and
    its `Drop` implementation that calls `rd_kafka_message_destroy`),
  * the body of `poll_loop` (poll outcome → channel send mapping, the stop-flag
    check at loop top, the `continue` on unreported timeouts, and the break on
    a failed send),
  * the `StreamConsumer` lifecycle operations `start_with`, `stop` and `Drop`,
  * the `MessageStream::poll` conversion of received channel items,
  * the `duration_to_millis(...) as i32` conversion of the poll interval.

Pointers and thread identifiers are modelled as natural numbers; the external
collaborators (`BaseConsumer::poll_raw`, the futures mpsc channel) are modelled
by outcome schedules and by a rendezvous-channel transition system.
-/

namespace StreamConsumerModel

/-- Errors carried on the channel: `KafkaError::NoMessageReceived` constructed
by the loop itself, and an opaque constructor standing for every other
`KafkaError` variant passed through from `poll_raw`. -/
inductive KafkaError where
  | NoMessageReceived : KafkaError
  | ClientError : Nat → KafkaError
deriving DecidableEq, Repr

/-- `KafkaResult<T> = Result<T, KafkaError>`. -/
abbrev KafkaResult (α : Type) := Except KafkaError α

instance {α : Type} [DecidableEq α] : DecidableEq (KafkaResult α) := fun a b =>
  match a, b with
  | .ok x, .ok y => decidable_of_iff (x = y) ⟨congrArg Except.ok, Except.ok.inj⟩
  | .ok _, .error _ => isFalse (by intro h; cases h)
  | .error _, .ok _ => isFalse (by intro h; cases h)
  | .error x, .error y => decidable_of_iff (x = y) ⟨congrArg Except.error, Except.error.inj⟩

/-- `struct PolledPtr { message_ptr: Option<*mut RDKafkaMessage> }` — the raw
message handle; the pointer is modelled as a `Nat`. -/
structure PolledPtr where
  message_ptr : Option Nat
deriving DecidableEq, Repr

/-- `PolledPtr::new(message_ptr)` stores the freshly polled pointer. -/
def PolledPtr.new (message_ptr : Nat) : PolledPtr :=
  { message_ptr := some message_ptr }

/-- `Message<'a>` — the borrowed message view; only the wrapped pointer is
relevant to the claims (the lifetime parameter has no runtime content). -/
structure Message where
  ptr : Nat
deriving DecidableEq, Repr

/-- `Message::new(ptr, container)` from the message-view collaborator. -/
def Message.new (ptr : Nat) : Message :=
  { ptr := ptr }

/-- `PolledPtr::into_message_of`: `Message::new(self.message_ptr.take().unwrap(), ...)`.
The `take()` nulls the owned slot; the `unwrap()` is modelled as `Option`:
`none` is the panic case of an already-empty handle. The returned pair is the
message view together with the handle's post-`take` state. -/
def PolledPtr.into_message_of (p : PolledPtr) : Option (Message × PolledPtr) :=
  p.message_ptr.map (fun ptr => (Message.new ptr, { message_ptr := none }))

/-- `impl Drop for PolledPtr`: `rd_kafka_message_destroy` is called iff the
owned slot is still occupied. The value is the number of destroy calls the
drop performs. -/
def PolledPtr.dropDestroys (p : PolledPtr) : Nat :=
  match p.message_ptr with
  | some _ => 1
  | none => 0

/-- Number of `rd_kafka_message_destroy` calls performed *by the handle
itself* over a complete lifecycle: the handle is created by `PolledPtr::new`,
then either converted via `into_message_of` (and the emptied handle dropped)
or dropped unconverted. -/
def lifecycleHandleDestroys (ptr : Nat) (convert : Bool) : Nat :=
  let h := PolledPtr.new ptr
  if convert then
    match h.into_message_of with
    | some (_, h2) => h2.dropDestroys
    | none => h.dropDestroys
  else
    h.dropDestroys

/-! ### The polling loop -/

/-- One outcome of `consumer.poll_raw(poll_interval_ms)`:
`Ok(None)` (timeout), `Ok(Some(m_ptr))` (a message), or `Err(e)`. -/
inductive PollOutcome where
  | okNone : PollOutcome
  | okSome : Nat → PollOutcome
  | err : KafkaError → PollOutcome
deriving DecidableEq, Repr

/-- The `match consumer.poll_raw(...)` arms of `poll_loop`: what a single
iteration hands to `curr_sender.send`, or `none` when the iteration
`continue`s without sending (unreported timeout). -/
def iterationSend (o : PollOutcome) (no_message_error : Bool) :
    Option (KafkaResult PolledPtr) :=
  match o with
  | .okNone =>
      if no_message_error then some (.error .NoMessageReceived) else none
  | .okSome m_ptr => some (.ok (PolledPtr.new m_ptr))
  | .err e => some (.error e)

/-- Environment of one `poll_loop` execution: the outcome `poll_raw` returns
at the i-th poll, the value of `should_stop` observed at the i-th loop-top
check, whether the receiver is still alive at the j-th send attempt, and the
`no_message_error` configuration flag. -/
structure LoopEnv where
  outcomes : Nat → PollOutcome
  stopFlag : Nat → Bool
  recvAlive : Nat → Bool
  no_message_error : Bool

/-- Observable state of a `poll_loop` execution: polls performed (equals
loop-top checks that passed), send attempts made, items successfully sent in
order, and whether the loop has exited. -/
structure LoopState where
  iter : Nat
  sendAttempts : Nat
  sent : List (KafkaResult PolledPtr)
  done : Bool
deriving DecidableEq, Repr

/-- State at `poll_loop` entry. -/
def LoopState.init : LoopState :=
  { iter := 0, sendAttempts := 0, sent := [], done := false }

/-- One iteration of the `while !should_stop.load(...)` loop: check the stop
flag; if still running, poll, and either `continue` (no send) or attempt the
send, which succeeds (`curr_sender = new_sender`) or breaks the loop when the
receiver is gone. -/
def loopStep (env : LoopEnv) (s : LoopState) : LoopState :=
  if s.done then s
  else if env.stopFlag s.iter then { s with done := true }
  else
    match iterationSend (env.outcomes s.iter) env.no_message_error with
    | none => { s with iter := s.iter + 1 }
    | some item =>
        if env.recvAlive s.sendAttempts then
          { s with
              iter := s.iter + 1
              sendAttempts := s.sendAttempts + 1
              sent := s.sent ++ [item] }
        else
          { s with
              iter := s.iter + 1
              sendAttempts := s.sendAttempts + 1
              done := true }

/-- The loop after `n` iterations. -/
def loopRun (env : LoopEnv) : Nat → LoopState
  | 0 => LoopState.init
  | n + 1 => loopStep env (loopRun env n)

/-- Environment in which the stop flag is never raised, the receiver stays
alive, and `poll_raw` returns the outcomes of the list `l` in order (the
loop never polls past `l.length` in the lemmas below). -/
def envOfList (no_message_error : Bool) (l : List PollOutcome) : LoopEnv :=
  { outcomes := fun i => l.getD i .okNone
    stopFlag := fun _ => false
    recvAlive := fun _ => true
    no_message_error := no_message_error }

/-- `MessageStream::poll` applied to one received channel item:
`result.map(|polled_ptr| polled_ptr.into_message_of(self.consumer))`.
The `Option` is the `unwrap` inside `into_message_of`. -/
def messageStreamConvert (r : KafkaResult PolledPtr) : Option (KafkaResult Message) :=
  match r with
  | .ok p => p.into_message_of.map (fun mp => .ok mp.1)
  | .error e => some (.error e)

/-- The items `MessageStream` yields for a list of channel items received in
FIFO order. -/
def messageStreamItems (sent : List (KafkaResult PolledPtr)) :
    List (Option (KafkaResult Message)) :=
  sent.map messageStreamConvert

/-! ### StreamConsumer lifecycle -/

/-- Lifecycle-relevant state of a `StreamConsumer`: the shared
`should_stop: Arc<AtomicBool>`, the `handle: Cell<Option<JoinHandle<()>>>`
slot, the identifiers of spawned polling threads that have not been joined,
and a counter supplying fresh thread identifiers. -/
structure ConsumerState where
  should_stop : Bool
  handle : Option Nat
  activeThreads : List Nat
  nextThreadId : Nat
deriving DecidableEq, Repr

/-- `from_config_and_context`: `should_stop: AtomicBool::new(false)`,
`handle: Cell::new(None)`, no thread spawned yet. -/
def ConsumerState.from_config : ConsumerState :=
  { should_stop := false, handle := none, activeThreads := [], nextThreadId := 0 }

/-- `StreamConsumer::start_with`: spawns a fresh polling thread and stores its
handle with `self.handle.set(Some(handle))`, unconditionally overwriting
whatever handle was stored before. The previously spawned thread (if any) is
not stopped or joined. -/
def ConsumerState.start_with (s : ConsumerState) : ConsumerState :=
  { s with
      handle := some s.nextThreadId
      activeThreads := s.activeThreads ++ [s.nextThreadId]
      nextThreadId := s.nextThreadId + 1 }

/-- `StreamConsumer::stop`: `if let Some(handle) = self.handle.take()` — when
no handle is stored nothing happens; otherwise `should_stop` is set to `true`
and `handle.join()` blocks until the stored thread has terminated (the joined
thread leaves `activeThreads`). `join`'s own result (`joinOk`) is only
logged, never returned, so the resulting state does not depend on it. -/
def ConsumerState.stop (s : ConsumerState) (_joinOk : Bool) : ConsumerState :=
  match s.handle with
  | none => s
  | some tid =>
      { s with
          should_stop := true
          handle := none
          activeThreads := s.activeThreads.erase tid }

/-- Events emitted, in order, by `StreamConsumer::stop`. -/
inductive DropEvent where
  | setFlag : DropEvent
  | joinThread : Nat → DropEvent
  | releaseConsumer : DropEvent
deriving DecidableEq, Repr

/-- The ordered events of a `stop` call: set the flag then join, or nothing
when no handle is stored. -/
def ConsumerState.stopEvents (s : ConsumerState) : List DropEvent :=
  match s.handle with
  | none => []
  | some tid => [.setFlag, .joinThread tid]

/-- `impl Drop for StreamConsumer`: `self.stop()` runs first; only after it
returns are the fields (the `Arc<BaseConsumer>` reference in particular)
released. -/
def ConsumerState.dropEvents (s : ConsumerState) : List DropEvent :=
  s.stopEvents ++ [.releaseConsumer]

/-- The consumer state after `Drop::drop` has run its `self.stop()`. -/
def ConsumerState.drop (s : ConsumerState) (joinOk : Bool) : ConsumerState :=
  s.stop joinOk

/-- States a `StreamConsumer` can actually be in: fresh from `from_config`,
then any interleaving of `start_with` and `stop` calls. -/
inductive Reachable : ConsumerState → Prop where
  | init : Reachable ConsumerState.from_config
  | start {s : ConsumerState} : Reachable s → Reachable s.start_with
  | stop {s : ConsumerState} (joinOk : Bool) : Reachable s → Reachable (s.stop joinOk)

/-! ### The rendezvous channel -/

/-- Modelled from the spec: the `futures::sync::mpsc` channel created with
`mpsc::channel(0)` is an external crate, absent from the sources; the spec's
RendezvousChannel is "capacity zero — a send only completes once a
corresponding receive is ready, and vice versa". State: an offer the blocked
sender is currently presenting, the number of completed sends, the number of
completed receives, and the items received in order. -/
structure RendezvousChannel (α : Type) where
  offered : Option α
  completedSends : Nat
  completedRecvs : Nat
  received : List α
deriving DecidableEq, Repr

/-- A fresh channel: nothing offered, nothing transferred. -/
def RendezvousChannel.init (α : Type) : RendezvousChannel α :=
  { offered := none, completedSends := 0, completedRecvs := 0, received := [] }

/-- Modelled from the spec: transitions of the capacity-zero channel. A
sender may offer an item when none is pending (the send does *not* complete
yet — the sender blocks); the send completes exactly at the instant a
receiver takes the offered item, so one send completion and one receive
completion always happen together. -/
inductive RendezvousStep {α : Type} : RendezvousChannel α → RendezvousChannel α → Prop where
  | offer (c : RendezvousChannel α) (x : α) (h : c.offered = none) :
      RendezvousStep c { c with offered := some x }
  | transfer (c : RendezvousChannel α) (x : α) (h : c.offered = some x) :
      RendezvousStep c
        { offered := none
          completedSends := c.completedSends + 1
          completedRecvs := c.completedRecvs + 1
          received := c.received ++ [x] }

/-- Channel states reachable from the fresh channel. -/
inductive RendezvousReachable {α : Type} : RendezvousChannel α → Prop where
  | init : RendezvousReachable (RendezvousChannel.init α)
  | step {c c' : RendezvousChannel α} :
      RendezvousReachable c → RendezvousStep c c' → RendezvousReachable c'

/-! ### Poll interval conversion -/

/-- Modelled from the spec: `util::duration_to_millis` is not under the
sources (only its call site is); the spec's poll interval is "the maximum
duration a single blocking fetch call may wait", handed to
`poll_raw(timeout_ms: integer)` as its whole-millisecond count. The value is
the u64 millisecond count of a `Duration` with `secs` seconds and `nanos`
subsecond nanoseconds (u64 arithmetic wraps modulo 2^64). -/
def duration_to_millis (secs nanos : Nat) : Nat :=
  (secs * 1000 + nanos / 1000000) % 2 ^ 64

/-- The Rust cast `as i32` applied to a u64 value: truncate to the low 32
bits and reinterpret in two's complement. -/
def u64_as_i32 (n : Nat) : Int :=
  let m : Nat := n % 2 ^ 32
  if m < 2 ^ 31 then (m : Int) else (m : Int) - 2 ^ 32

/-- Line 176 of `stream_consumer.rs`:
`let poll_interval_ms = duration_to_millis(poll_interval) as i32;`. -/
def poll_interval_ms (secs nanos : Nat) : Int :=
  u64_as_i32 (duration_to_millis secs nanos)

/-! ### Helper lemmas -/

/-- A loop that has exited never moves again: no further polls, no further
sends. -/
theorem loopStep_of_done (env : LoopEnv) (ls : LoopState) (h : ls.done = true) :
    loopStep env ls = ls := by
  simp [loopStep, h]

/-- As long as the stop flag stays down and the receiver stays alive, the
loop driven by the outcome list `l` polls once per iteration and has sent
exactly the `iterationSend` image of the outcomes consumed so far. -/
theorem loopRun_envOfList (flag : Bool) (l : List PollOutcome) :
    ∀ n, n ≤ l.length →
      loopRun (envOfList flag l) n =
        { iter := n
          sendAttempts := ((l.take n).filterMap (fun o => iterationSend o flag)).length
          sent := (l.take n).filterMap (fun o => iterationSend o flag)
          done := false } := by
  intro n
  induction n with
  | zero => intro _; rfl
  | succ n ih =>
      intro h
      have hlt : n < l.length := h
      have htake : l.take (n + 1)
          = l.take n ++ [l.get ⟨n, hlt⟩] := by
        rw [List.take_succ, List.getElem?_eq_getElem hlt]
        rfl
      rw [loopRun, ih (Nat.le_of_succ_le h)]
      simp only [loopStep, envOfList, htake, List.filterMap_append]
      rw [List.getD_eq_getElem l .okNone hlt]
      cases hsend : iterationSend l[n] flag with
      | none => simp [List.get_eq_getElem, hsend]
      | some item => simp [List.get_eq_getElem, hsend]

/-! ### Claim theorems -/

/-- C1: every `PolledPtr` handle runs `rd_kafka_message_destroy` exactly once
over its lifecycle unless ownership was transferred out by
`into_message_of`, in which case the handle itself destroys nothing (the
`take()` nulls the owned slot, so the drop after the transfer sees `None`);
the handle never destroys the same pointer twice. -/
theorem C1_handle_destroyed_exactly_once (ptr : Nat) (convert : Bool) :
    lifecycleHandleDestroys ptr convert = (if convert then 0 else 1) ∧
    lifecycleHandleDestroys ptr convert ≤ 1 ∧
    (PolledPtr.new ptr).into_message_of
      = some (Message.new ptr, { message_ptr := none }) ∧
    PolledPtr.dropDestroys { message_ptr := none } = 0 ∧
    (PolledPtr.new ptr).dropDestroys = 1 := by
  cases convert <;>
    simp [lifecycleHandleDestroys, PolledPtr.new, PolledPtr.into_message_of,
      PolledPtr.dropDestroys, Message.new]

/-- C2: one iteration of `poll_loop` maps the `poll_raw` outcome as follows:
`Ok(Some(h))` sends exactly `Ok(handle)`, `Err(e)` sends exactly `Err(e)`
unchanged, `Ok(None)` with `no_message_error` set sends exactly
`Err(NoMessageReceived)`, and `Ok(None)` with the flag unset sends nothing
and the loop is immediately back at the top ready to re-poll (not done, one
poll consumed). -/
theorem C2_single_iteration_mapping (flag : Bool) (p : Nat) (e : KafkaError)
    (o : PollOutcome) :
    iterationSend (.okSome p) flag = some (.ok (PolledPtr.new p)) ∧
    iterationSend (.err e) flag = some (.error e) ∧
    iterationSend .okNone true = some (.error .NoMessageReceived) ∧
    iterationSend .okNone false = none ∧
    (loopRun (envOfList flag [o]) 1).sent = (iterationSend o flag).toList ∧
    (loopRun (envOfList flag [o]) 1).done = false ∧
    (loopRun (envOfList flag [o]) 1).iter = 1 := by
  have h1 := loopRun_envOfList flag [o] 1 (by simp)
  refine ⟨rfl, rfl, rfl, rfl, ?_, by rw [h1], by rw [h1]⟩
  rw [h1]
  cases hsend : iterationSend o flag <;> simp [hsend]

/-- The environment of the C3 failing execution: the `MessageStream`
receiver is already dropped, `no_message_error` is `false`, `should_stop` is
never raised, and `poll_raw` times out (`Ok(None)`) on every call. -/
def droppedReceiverTimeoutEnv : LoopEnv :=
  { outcomes := fun _ => .okNone
    stopFlag := fun _ => false
    recvAlive := fun _ => false
    no_message_error := false }

/-- C3 is a code bug: with the receiver dropped, `no_message_error = false`
and an unbounded run of `Ok(None)` timeouts, the `continue` arm skips the
send entirely, so the loop performs `n` polls for every `n`, makes zero send
attempts, and never terminates — it does not exit within one poll and one
send attempt as the claim states (the source's own
`// TODO: check stream closed` marks the missing check). -/
theorem C3_dropped_receiver_loop_never_sends_never_exits (n : Nat) :
    loopRun droppedReceiverTimeoutEnv n =
      { iter := n, sendAttempts := 0, sent := [], done := false } := by
  induction n with
  | zero => rfl
  | succ n ih => rw [loopRun, ih]; rfl

/-- Invariant of reachable consumer states: spawned-and-unjoined thread
identifiers are pairwise distinct and below the fresh-identifier counter. -/
theorem reachable_threads_nodup {s : ConsumerState} (hs : Reachable s) :
    s.activeThreads.Nodup ∧ ∀ t ∈ s.activeThreads, t < s.nextThreadId := by
  induction hs with
  | init => simp [ConsumerState.from_config]
  | start _ ih =>
      obtain ⟨hnd, hlt⟩ := ih
      constructor
      · rw [ConsumerState.start_with, List.nodup_append]
        refine ⟨hnd, List.nodup_singleton _, ?_⟩
        intro t ht ht'
        have := hlt t ht
        simp only [List.mem_singleton] at ht'
        omega
      · intro t ht
        rw [ConsumerState.start_with] at ht
        simp only [List.mem_append, List.mem_singleton] at ht
        rcases ht with ht | ht
        · have := hlt t ht
          simp [ConsumerState.start_with]
          omega
        · simp [ConsumerState.start_with, ht]
  | stop j _ ih =>
      obtain ⟨hnd, hlt⟩ := ih
      rename_i s' _
      cases hh : s'.handle with
      | none => simpa [ConsumerState.stop, hh] using ⟨hnd, hlt⟩
      | some tid =>
          refine ⟨?_, ?_⟩
          · simpa [ConsumerState.stop, hh] using hnd.erase tid
          · intro t ht
            simp only [ConsumerState.stop, hh] at ht ⊢
            exact hlt t (List.mem_of_mem_erase ht)

/-- `stop` on a state with a stored handle joins exactly that thread: it is
removed from the active set (the join blocks until it has terminated) and
the stop flag is up. -/
theorem stop_joins_stored_thread (s : ConsumerState) (j : Bool) (tid : Nat)
    (hs : Reachable s) (h : s.handle = some tid) :
    tid ∉ (s.stop j).activeThreads ∧ (s.stop j).should_stop = true := by
  obtain ⟨hnd, _⟩ := reachable_threads_nodup hs
  have hstop : s.stop j =
      { s with
          should_stop := true
          handle := none
          activeThreads := s.activeThreads.erase tid } := by
    simp [ConsumerState.stop, h]
  rw [hstop]
  exact ⟨hnd.not_mem_erase, rfl⟩

/-- C4 is a code bug: calling `start_with` a second time without an
intervening `stop` spawns a second polling thread and merely overwrites the
stored handle, so two polling threads (identifiers 0 and 1) are active at
once on the same underlying consumer, the stop flag is still down (both keep
running), and only thread 1's handle remains stored (thread 0 is orphaned). -/
theorem C4_double_start_leaves_two_active_threads :
    (ConsumerState.from_config.start_with.start_with).activeThreads = [0, 1] ∧
    (ConsumerState.from_config.start_with.start_with).activeThreads.length = 2 ∧
    (ConsumerState.from_config.start_with.start_with).should_stop = false ∧
    (ConsumerState.from_config.start_with.start_with).handle = some 1 :=
  ⟨rfl, rfl, rfl, rfl⟩

/-- C5: `stop` is idempotent — with no stored handle it is a no-op; after
any `stop` the handle slot is empty, so a second `stop` does nothing; the
state after `stop` does not depend on the `join` result (a join failure is
only logged, never escalated); and when a handle was stored, `stop` returns
only after that thread is joined (it is no longer active) with the stop flag
raised. -/
theorem C5_stop_idempotent (s : ConsumerState) (j1 j2 : Bool) (hs : Reachable s) :
    (s.handle = none → s.stop j1 = s) ∧
    (s.stop j1).handle = none ∧
    (s.stop j1).stop j2 = s.stop j1 ∧
    s.stop true = s.stop false ∧
    (∀ tid, s.handle = some tid →
      tid ∉ (s.stop j1).activeThreads ∧ (s.stop j1).should_stop = true) := by
  obtain ⟨hnd, -⟩ := reachable_threads_nodup hs
  rcases Option.eq_none_or_eq_some s.handle with hh | ⟨tid0, hh⟩
  · have hid : ∀ j, s.stop j = s := fun j => by simp [ConsumerState.stop, hh]
    refine ⟨fun _ => hid j1, ?_, ?_, ?_, ?_⟩
    · rw [hid j1, hh]
    · rw [hid j1, hid j2]
    · rw [hid true, hid false]
    · intro tid htid
      rw [hh] at htid
      exact Option.noConfusion htid
  · have hstop : ∀ j, s.stop j =
        { s with
            should_stop := true
            handle := none
            activeThreads := s.activeThreads.erase tid0 } := fun j => by
      simp [ConsumerState.stop, hh]
    have hstop' : ∀ j' : Bool,
        ({ s with
            should_stop := true
            handle := none
            activeThreads := s.activeThreads.erase tid0 } : ConsumerState).stop j' =
          { s with
              should_stop := true
              handle := none
              activeThreads := s.activeThreads.erase tid0 } := fun j' => by
      simp [ConsumerState.stop]
    refine ⟨?_, ?_, ?_, ?_, ?_⟩
    · intro hcon
      rw [hh] at hcon
      exact Option.noConfusion hcon
    · rw [hstop j1]
    · rw [hstop j1, hstop' j2]
    · rw [hstop true, hstop false]
    · intro tid htid
      rw [hh] at htid
      cases htid
      rw [hstop j1]
      exact ⟨hnd.not_mem_erase, rfl⟩

/-- C5 witness: concrete run — `from_config` then `start_with`; stopping
twice equals stopping once. -/
theorem C5_stop_idempotent_witness :
    ((ConsumerState.from_config.start_with).stop true).stop false
      = (ConsumerState.from_config.start_with).stop true :=
  (C5_stop_idempotent ConsumerState.from_config.start_with true false
    (Reachable.start Reachable.init)).2.2.1

/-- C6: `Drop for StreamConsumer` runs a full `stop` before the consumer
reference is released — the emitted event order is set-flag, join, and only
then release; after the drop the joined polling thread is no longer active;
and a loop that has exited never polls again, so the polling thread never
calls `poll_raw` once the consumer has been released. -/
theorem C6_drop_joins_before_release (s : ConsumerState) (j : Bool) (tid : Nat)
    (hs : Reachable s) (h : s.handle = some tid) :
    s.dropEvents = [.setFlag, .joinThread tid, .releaseConsumer] ∧
    tid ∉ (s.drop j).activeThreads ∧
    (∀ env ls, ls.done = true → loopStep env ls = ls) := by
  refine ⟨?_, ?_, fun env ls hdone => loopStep_of_done env ls hdone⟩
  · simp [ConsumerState.dropEvents, ConsumerState.stopEvents, h]
  · exact (stop_joins_stored_thread s j tid hs h).1

/-- C6 witness: concrete run — after one `start_with` the drop events are
flag, join of thread 0, then release. -/
theorem C6_drop_joins_before_release_witness :
    (ConsumerState.from_config.start_with).dropEvents
      = [.setFlag, .joinThread 0, .releaseConsumer] :=
  (C6_drop_joins_before_release ConsumerState.from_config.start_with true 0
    (Reachable.start Reachable.init) rfl).1

/-- C7: with the stop flag down and the receiver alive, `n` consecutive
`Ok(Some(h_i))` polls make the loop send exactly the `n` successes in poll
order, and the `MessageStream` converts that FIFO sequence into the same `n`
messages in the same order; in general the sent sequence is exactly the
order-preserving `iterationSend` image of the poll outcomes, so errors are
forwarded in their position as well. -/
theorem C7_fifo_no_loss_no_reorder (ptrs : List Nat) (l : List PollOutcome)
    (flag : Bool) :
    (loopRun (envOfList flag l) l.length).sent
      = l.filterMap (fun o => iterationSend o flag) ∧
    (loopRun (envOfList flag (ptrs.map PollOutcome.okSome)) ptrs.length).sent
      = ptrs.map (fun p => .ok (PolledPtr.new p)) ∧
    messageStreamItems (ptrs.map (fun p => .ok (PolledPtr.new p)))
      = ptrs.map (fun p => some (.ok (Message.new p))) := by
  refine ⟨?_, ?_, ?_⟩
  · rw [loopRun_envOfList flag l l.length le_rfl, List.take_length]
  · have hlen : ptrs.length = (ptrs.map PollOutcome.okSome).length :=
      (List.length_map ptrs PollOutcome.okSome).symm
    rw [hlen, loopRun_envOfList flag (ptrs.map PollOutcome.okSome) _ le_rfl,
      List.take_length, List.filterMap_map]
    rw [show ((fun o => iterationSend o flag) ∘ PollOutcome.okSome)
        = some ∘ (fun p => (Except.ok (PolledPtr.new p) : KafkaResult PolledPtr)) from rfl,
      List.filterMap_eq_map]
  · simp [messageStreamItems, messageStreamConvert, PolledPtr.into_message_of,
      PolledPtr.new, Message.new]

/-- C8: in every reachable state of the capacity-zero rendezvous channel the
number of completed sends equals the number of completed receives (a send
completes only at the instant of its matching receive), and every completed
transfer is an item the receiver holds — there is no buffering, so producer
and consumer rates are coupled exactly one-for-one. -/
theorem C8_rendezvous_send_recv_one_for_one {α : Type} (c : RendezvousChannel α)
    (hc : RendezvousReachable c) :
    c.completedSends = c.completedRecvs ∧
    c.received.length = c.completedSends := by
  induction hc with
  | init => exact ⟨rfl, rfl⟩
  | step _ hstep ih =>
      obtain ⟨h1, h2⟩ := ih
      cases hstep with
      | offer x hx => exact ⟨h1, h2⟩
      | transfer x hx => simp [h1, h2]

/-- C8 witness: the channel state after one offer and its matching transfer
is reachable and balanced. -/
theorem C8_rendezvous_send_recv_one_for_one_witness :
    ({ offered := none, completedSends := 1, completedRecvs := 1,
        received := [5] } : RendezvousChannel Nat).completedSends
      = ({ offered := none, completedSends := 1, completedRecvs := 1,
            received := [5] } : RendezvousChannel Nat).completedRecvs :=
  (C8_rendezvous_send_recv_one_for_one _
    (RendezvousReachable.step
      (RendezvousReachable.step RendezvousReachable.init
        (RendezvousStep.offer (RendezvousChannel.init Nat) 5 rfl))
      (RendezvousStep.transfer _ 5 rfl))).1

/-- C9 counterexample: `stop()` on a consumer that was never started takes
the `None` branch of `if let Some(handle) = self.handle.take()` and does
*not* set the stop flag, so a `start_with` that follows runs its loop with
the flag down and the stream does yield items — here one successful poll is
sent — contradicting the claim that any start after a `stop()` call yields
no items. -/
theorem C9_stop_before_start_counterexample :
    (ConsumerState.from_config.stop true).should_stop = false ∧
    ((ConsumerState.from_config.stop true).start_with).should_stop = false ∧
    (loopRun (envOfList false [.okSome 7]) 1).sent = [.ok (PolledPtr.new 7)] := by
  refine ⟨rfl, rfl, ?_⟩
  rw [loopRun_envOfList false [.okSome 7] 1 (by simp)]
  rfl

/-- C9 amended: after a `stop()` that found a stored thread handle (i.e. a
start had happened), the stop flag is `true`; neither `start_with` nor a
later `stop` ever resets it; and a polling loop that reads the flag as
`true` at every loop-top check exits at its first check having polled
nothing and sent nothing, so the stream a subsequent start returns yields no
items. -/
theorem C9_start_after_effective_stop_yields_nothing (s : ConsumerState)
    (j : Bool) (tid : Nat) (h : s.handle = some tid) :
    (s.stop j).should_stop = true ∧
    ((s.stop j).start_with).should_stop = true ∧
    (∀ s' : ConsumerState, s'.should_stop = true →
      s'.start_with.should_stop = true ∧ (s'.stop j).should_stop = true) ∧
    (∀ env : LoopEnv, (∀ i, env.stopFlag i = true) →
      ∀ n, (loopRun env n).sent = [] ∧ (loopRun env n).iter = 0 ∧
        (loopRun env n).sendAttempts = 0) := by
  have hflag : (s.stop j).should_stop = true := by
    simp [ConsumerState.stop, h]
  have hpreserve : ∀ s' : ConsumerState, s'.should_stop = true →
      s'.start_with.should_stop = true ∧ (s'.stop j).should_stop = true := by
    intro s' h'
    refine ⟨h', ?_⟩
    rcases Option.eq_none_or_eq_some s'.handle with hh | ⟨tid', hh⟩
    · simpa [ConsumerState.stop, hh] using h'
    · simp [ConsumerState.stop, hh]
  refine ⟨hflag, (hpreserve (s.stop j) hflag).1, hpreserve, ?_⟩
  intro env henv n
  induction n with
  | zero => exact ⟨rfl, rfl, rfl⟩
  | succ n ih =>
      obtain ⟨h1, h2, h3⟩ := ih
      rw [loopRun]
      by_cases hdone : (loopRun env n).done = true
      · rw [loopStep_of_done env _ hdone]
        exact ⟨h1, h2, h3⟩
      · rw [loopStep, if_neg (by simpa using hdone), h2, henv 0, if_pos rfl]
        exact ⟨h1, rfl, h3⟩

/-- C9 amended witness: a started consumer, once stopped, has its flag up. -/
theorem C9_start_after_effective_stop_yields_nothing_witness :
    ((ConsumerState.from_config.start_with).stop true).should_stop = true :=
  (C9_start_after_effective_stop_yields_nothing
    ConsumerState.from_config.start_with true 0 rfl).1

/-- C10: the poll interval is converted by
`duration_to_millis(poll_interval) as i32` — any `Duration` whose
millisecond count is at most `2^31 - 1` is passed exactly; in general the
passed value is the millisecond count wrapped modulo `2^32` into the i32
range, and a `Duration` of `2^31` milliseconds is passed as the negative
timeout `-2^31` rather than being rejected or saturated. -/
theorem C10_poll_interval_wraps_to_i32 (secs nanos : Nat)
    (h : duration_to_millis secs nanos ≤ 2 ^ 31 - 1) :
    poll_interval_ms secs nanos = duration_to_millis secs nanos ∧
    (∀ s n : Nat, poll_interval_ms s n % (2 ^ 32 : Int)
        = (duration_to_millis s n : Int) % (2 ^ 32 : Int)) ∧
    (∀ s n : Nat, -(2 ^ 31) ≤ poll_interval_ms s n ∧ poll_interval_ms s n < 2 ^ 31) ∧
    poll_interval_ms 2147483 648000000 = -(2 ^ 31) := by
  refine ⟨?_, ?_, ?_, ?_⟩
  · simp only [poll_interval_ms, u64_as_i32]
    split <;> omega
  · intro s n
    simp only [poll_interval_ms, u64_as_i32]
    split <;> omega
  · intro s n
    simp only [poll_interval_ms, u64_as_i32]
    split <;> omega
  · decide

/-- C10 witness: the zero interval is below the threshold and is passed
exactly. -/
theorem C10_poll_interval_wraps_to_i32_witness :
    duration_to_millis 0 0 ≤ 2 ^ 31 - 1 ∧
    poll_interval_ms 0 0 = duration_to_millis 0 0 :=
  ⟨by decide, (C10_poll_interval_wraps_to_i32 0 0 (by decide)).1⟩

end StreamConsumerModel
